import Mathlib

/-
Verification of the Query Execution & Data Mutation core of the BankSight
dashboard (src/bank.py) against its natural-language specification.

The embedding models:
  - the result-table shape (`Table`) produced by the query executor,
  - the helper `run_query` (bank.py lines 22-31) over a model of
    `pandas.read_sql_query` / the sqlite driver,
  - the query catalog `queries` (bank.py lines 80-322) with its literal
    statements, and a statement evaluator for the statements the claims
    exercise (group-by-sum aggregation, table-name resolution),
  - the four CRUD branches (bank.py lines 339-381) over a model of the
    sqlite store with the externally owned `customers` schema.

Driver failures that depend on the environment (disk errors, lock errors)
are modelled by an explicit `fault : Option String` parameter threaded to
every store operation: `some msg` means the driver raised with that
message during the call, `none` means the driver itself did not fail.
A public operation whose Lean type is a plain value catches every driver
failure at its boundary; an operation returning `Except String _` lets a
driver failure escape as `.error`.
-/

deriving instance DecidableEq for Except

set_option maxRecDepth 40000

namespace Bank

/-- A typed cell value in a result table (spec section 4.5). The claims only
exercise text and integer cells, so the other store types are not needed. -/
inductive Value where
  | text (v : String)
  | int (v : Int)
  deriving DecidableEq, Repr

/-- Result shape of the query executor (spec section 4.5): ordered column
names plus ordered rows of values. -/
structure Table where
  columns : List String
  rows : List (List Value)
  deriving DecidableEq, Repr

/-- A row of the `customers` table, with the column order used by the
INSERT statement of the Create branch (bank.py line 350) and documented in
spec section 6. -/
structure Customer where
  customer_id : String
  name : String
  gender : String
  age : Nat
  city : String
  account_type : String
  join_date : String
  deriving DecidableEq, Repr

/-- A row of the `transactions` table (spec section 6). -/
structure Txn where
  txn_id : String
  customer_id : String
  txn_type : String
  amount : Int
  status : String
  txn_time : String
  deriving DecidableEq, Repr

/-- The relational store. Only the two tables whose contents the claims
inspect are carried with row-level detail; the schema's table-name set is
`tableNames` below. -/
structure Store where
  customers : List Customer
  transactions : List Txn
  deriving DecidableEq, Repr

/-- Messages surfaced to the caller during one operation: the arguments of
the st.error and st.success calls made by the branch, in order. -/
structure Display where
  errors : List String
  successes : List String
  deriving DecidableEq, Repr

/-- The table list of the store schema. It is the source's `tables` list
(bank.py line 68) and coincides with the documented schema of spec
section 6. Note that `tickets` is not among them. -/
def tableNames : List String :=
  ["customers", "accounts", "transactions", "loans", "credit_cards", "branches", "support_tickets"]

/-- Number of customer rows matching an identifier (row count for that id). -/
def read_filtered (cid : String) (s : Store) : List Customer :=
  s.customers.filter (fun c => c.customer_id == cid)

/-- Row count for an identifier, used to state store-level effects. -/
def countId (cid : String) (s : Store) : Nat :=
  (read_filtered cid s).length

/-- Modelled from the spec: `customers.customer_id` is the table's primary
key (section 6), so the store enforces uniqueness; a duplicate insert
surfaces sqlite's UNIQUE-constraint failure. The schema itself is owned by
an external seeding process (section 6), not by src/. On success the INSERT
of the Create branch (bank.py line 350) appends the row. -/
def sqliteInsertCustomer (row : Customer) (fault : Option String) (s : Store) :
    Except String Store :=
  match fault with
  | some m => .error m
  | none =>
    if s.customers.any (fun c => c.customer_id == row.customer_id) then
      .error "UNIQUE constraint failed: customers.customer_id"
    else
      .ok { s with customers := s.customers ++ [row] }

/-- Store after `DELETE FROM customers WHERE customer_id=?` (bank.py line 379). -/
def delStore (cid : String) (s : Store) : Store :=
  { s with customers := s.customers.filter (fun c => !(c.customer_id == cid)) }

/-- Store after `UPDATE customers SET city=? WHERE customer_id=?` (bank.py line 369). -/
def updStore (cid newCity : String) (s : Store) : Store :=
  { s with customers :=
      s.customers.map (fun c => if c.customer_id == cid then { c with city := newCity } else c) }

/-- The driver call made by the Update branch (bank.py line 369): returns the
sqlite rowcount (number of matched rows) together with the updated store, or
a driver failure. -/
def sqliteUpdateCity (cid newCity : String) (fault : Option String) (s : Store) :
    Except String (Nat × Store) :=
  match fault with
  | some m => .error m
  | none => .ok (countId cid s, updStore cid newCity s)

/-- The driver call made by the Delete branch (bank.py line 379): returns the
sqlite rowcount (number of deleted rows) together with the updated store, or
a driver failure. -/
def sqliteDeleteCustomer (cid : String) (fault : Option String) (s : Store) :
    Except String (Nat × Store) :=
  match fault with
  | some m => .error m
  | none => .ok (countId cid s, delStore cid s)

/-- The Create branch (bank.py lines 339-354). The whole driver call sits in
a try/except, so the branch returns plainly: every driver failure is caught
and shown via st.error, and the store is then unchanged. The join date is
the seventh INSERT value, `DATE('now')`, passed here as `today`; it is not
among the six caller-supplied fields. -/
def createBranch (cid name gender : String) (age : Nat) (city account_type : String)
    (today : String) (fault : Option String) (s : Store) : Display × Store :=
  match sqliteInsertCustomer ⟨cid, name, gender, age, city, account_type, today⟩ fault s with
  | .ok s2 => (⟨[], ["Customer added successfully!"]⟩, s2)
  | .error e => (⟨[e], []⟩, s)

/-- The Update branch (bank.py lines 363-371). There is no try/except around
the driver call, so a driver failure propagates out of the operation: the
result type is `Except`. On success the branch unconditionally shows
"Customer updated!" and ignores the rowcount. -/
def updateBranch (cid newCity : String) (fault : Option String) (s : Store) :
    Except String (Display × Store) :=
  (sqliteUpdateCity cid newCity fault s).map (fun p => (⟨[], ["Customer updated!"]⟩, p.2))

/-- The Delete branch (bank.py lines 374-381). As with Update there is no
try/except: a driver failure propagates. On success the branch
unconditionally shows "Customer deleted!" and ignores the rowcount. -/
def deleteBranch (cid : String) (fault : Option String) (s : Store) :
    Except String (Display × Store) :=
  (sqliteDeleteCustomer cid fault s).map (fun p => (⟨[], ["Customer deleted!"]⟩, p.2))

/-- Statement of catalog entry 5 (bank.py lines 127-131). -/
def stmt5 : String :=
  "SELECT txn_type, SUM(amount) AS total_transaction_volume FROM transactions GROUP BY txn_type ORDER BY total_transaction_volume DESC;"

/-- Key of catalog entry 5. -/
def key5 : String := "5. Total transaction volume by transaction type"

/-- Statement of catalog entry 16 (bank.py lines 223-227). -/
def stmt16 : String :=
  "SELECT city, COUNT(*) AS total_customers FROM customers GROUP BY city;"

/-- Key of catalog entry 16. -/
def key16 : String := "16. How many customers exist in each city?"

/-- Statement of catalog entry 20 (bank.py lines 249-252). Unlike entry 5 it
aliases the sum as total_volume and has no ORDER BY clause. -/
def stmt20 : String :=
  "SELECT txn_type, SUM(amount) AS total_volume FROM transactions GROUP BY txn_type;"

/-- Key of catalog entry 20. -/
def key20 : String := "20. Total transaction volume by transaction type"

/-- Statement of catalog entry 21 (bank.py lines 254-264). It selects FROM
tickets, a table that is not part of the schema. -/
def stmt21 : String :=
  "SELECT support_agent, COUNT(*) AS resolved_tickets FROM tickets WHERE priority = \x27Critical\x27 AND customer_rating >= 4 AND status = \x27Resolved\x27 GROUP BY support_agent ORDER BY resolved_tickets DESC;"

/-- Key of catalog entry 21 (no space after the dot, as in the source). -/
def key21 : String := "21.Support agents who resolved most critical tickets with rating ≥ 4"

/-- The query catalog `queries` (bank.py lines 80-322): the literal
(key, statement) pairs in declaration order. It is a closed constant, so it
is populated once and cannot be mutated at runtime, and its enumeration
order is its declaration order by construction. -/
def queries : List (String × String) :=
  [("1. How many customers exist per city, and what is their average account balance?",
    "SELECT city, COUNT(*) AS customers, AVG(account_balance) AS avg_balance FROM customers c JOIN accounts a USING (customer_id) GROUP BY city LIMIT 5;"),
   ("2. Which account type holds the highest total balance?",
    "SELECT c.account_type, SUM(a.account_balance) AS total_balance FROM customers c JOIN accounts a ON c.customer_id = a.customer_id GROUP BY c.account_type ORDER BY total_balance DESC;"),
   ("3. Top 10 customers by total balance across all accounts",
    "SELECT c.customer_id, c.name, c.city, c.account_type, SUM(a.account_balance) AS total_balance FROM customers c JOIN accounts a ON c.customer_id = a.customer_id GROUP BY c.customer_id, c.name, c.city, c.account_type ORDER BY total_balance DESC LIMIT 5;"),
   ("4. Customers who opened accounts in 2023 with balance > ₹1,00,000",
    "SELECT c.customer_id, c.name, c.city, c.account_type, a.account_balance, c.join_date FROM customers c JOIN accounts a ON c.customer_id = a.customer_id WHERE strftime(\x27%Y\x27, c.join_date) = \x272023\x27 AND a.account_balance > 100000 ORDER BY a.account_balance DESC LIMIT 5;"),
   (key5, stmt5),
   ("6. Accounts with more than 3 failed transactions in a month",
    "SELECT customer_id, strftime(\x27%Y-%m\x27, txn_time) AS txn_month, COUNT(*) AS failed_txn_count FROM transactions WHERE status = \x27failed\x27 GROUP BY customer_id, txn_month HAVING COUNT(*) > 2 ORDER BY failed_txn_count DESC LIMIT 5;"),
   ("7. Top 5 branches by transaction volume (last 6 months)",
    "SELECT b.Branch_Name, SUM(t.amount) AS total_transaction_volume FROM transactions t JOIN customers c ON t.customer_id = c.customer_id JOIN branches b ON c.city = b.City WHERE t.txn_time >= strftime(\x27%Y-%m-%d\x27, \x27now\x27, \x27-6 months\x27) GROUP BY b.Branch_Name ORDER BY total_transaction_volume DESC LIMIT 5;"),
   ("8. Accounts with 5+ high-value transactions (₹95,000+)",
    "SELECT customer_id, COUNT(txn_id) AS high_value_transaction_count FROM transactions WHERE amount >= 95000 AND status = \x27success\x27 GROUP BY customer_id HAVING COUNT(txn_id) >= 5 ORDER BY high_value_transaction_count DESC LIMIT 5;"),
   ("9. Avg loan amount & interest rate by loan type",
    "SELECT Loan_Type, AVG(Loan_Amount) AS avg_loan_amount, AVG(Interest_Rate) AS avg_interest_rate FROM loans GROUP BY Loan_Type ORDER BY avg_loan_amount DESC;"),
   ("10. Customers holding more than one active loan",
    "SELECT Customer_ID, COUNT(*) AS active_loans FROM loans WHERE Loan_Status IN (\x27Active\x27, \x27Approved\x27) GROUP BY Customer_ID HAVING COUNT(*) > 1 ORDER BY active_loans DESC LIMIT 5;"),
   ("11. Top 5 customers with highest outstanding loan amount",
    "SELECT Customer_ID, SUM(Loan_Amount) AS total_outstanding FROM loans WHERE Loan_Status != \x27Closed\x27 GROUP BY Customer_ID ORDER BY total_outstanding DESC LIMIT 5;"),
   ("12. Branch with highest account balance",
    "SELECT b.Branch_Name, SUM(a.account_balance) AS total_balance FROM accounts a JOIN customers c ON a.customer_id = c.customer_id JOIN branches b ON c.city = b.City GROUP BY b.Branch_Name ORDER BY total_balance DESC LIMIT 5;"),
   ("13. Branch performance (customers, loans, transactions)",
    "SELECT b.Branch_Name, COUNT(DISTINCT c.customer_id) AS total_customers, COUNT(DISTINCT l.Loan_ID) AS total_loans, SUM(t.amount) AS total_transaction_volume FROM branches b LEFT JOIN customers c ON c.city = b.City LEFT JOIN loans l ON l.Branch = b.Branch_Name LEFT JOIN transactions t ON t.customer_id = c.customer_id GROUP BY b.Branch_Name;"),
   ("14. Issue categories with longest resolution time",
    "SELECT issue_category, AVG(JULIANDAY(date_closed) - JULIANDAY(date_opened)) AS avg_resolution_days FROM support_tickets WHERE date_opened IS NOT NULL GROUP BY issue_category ORDER BY avg_resolution_days DESC;"),
   ("15. Agents resolving most critical tickets with rating ≥ 4",
    "SELECT Support_Agent, COUNT(*) AS resolved_critical_high_rating FROM support_tickets WHERE priority = \x27Critical\x27 AND Customer_Rating >= 4 AND status = \x27Resolved\x27 GROUP BY Support_Agent ORDER BY resolved_critical_high_rating DESC;"),
   (key16, stmt16),
   ("17. What is the average account balance by account type?",
    "SELECT account_type, AVG(account_balance) AS avg_balance FROM customers c JOIN accounts a ON c.customer_id = a.customer_id GROUP BY account_type;"),
   ("18. Who are the top 10 customers by total account balance?",
    "SELECT c.name, SUM(a.account_balance) AS total_balance FROM customers c JOIN accounts a ON c.customer_id = a.customer_id GROUP BY c.customer_id ORDER BY total_balance DESC LIMIT 10;"),
   ("19. Which customers opened accounts in 2023 with balance > ₹1,00,000?",
    "SELECT c.customer_id, c.name, a.account_balance FROM customers c JOIN accounts a ON c.customer_id = a.customer_id WHERE strftime(\x27%Y\x27, c.join_date) = \x272023\x27 AND a.account_balance > 100000;"),
   (key20, stmt20),
   (key21, stmt21),
   ("22. Retrieve all customers who have not updated their account balance in the last 30 days.",
    "SELECT * FROM accounts WHERE last_updated < DATE(\x27now\x27, \x27-30 days\x27);"),
   ("23. Find the average age of customers for each account type.",
    "SELECT account_type, AVG(age) AS avg_age FROM customers GROUP BY account_type;"),
   ("24. Count how many transactions happened on weekends.",
    "SELECT COUNT(*) AS weekend_transactions FROM transactions WHERE strftime(\x27%w\x27, txn_time) IN (\x270\x27,\x276\x27);"),
   ("25. Find customers who made at least one transaction above ₹50,000.",
    "SELECT DISTINCT customer_id FROM transactions WHERE amount > 50000;"),
   ("26. Get the total number of failed transactions per customer.",
    "SELECT customer_id, COUNT(*) AS failed_count FROM transactions WHERE status = \x27failed\x27 GROUP BY customer_id;"),
   ("7. Find the 10 earliest registered customers.",
    "SELECT * FROM customers ORDER BY join_date LIMIT 10;"),
   ("28. Retrieve customers who live in the same city as more than 2 other customers.",
    "SELECT city, COUNT(*) AS num_customers FROM customers GROUP BY city HAVING num_customers > 2;"),
   ("29. Find the count of transactions by status (success/failed).",
    "SELECT status, COUNT(*) AS count FROM transactions GROUP BY status;"),
   ("30. Show customers whose name starts with \x27A\x27.",
    "SELECT * FROM customers WHERE name LIKE \x27A%\x27;")]

/-- Dictionary lookup on the catalog: `queries[selected]` succeeds exactly
for declared keys (a missing key raises KeyError in the source, modelled as
`none`, the NotFoundError of the spec). -/
def lookupQuery (id : String) : Option String :=
  (queries.find? (fun p => p.1 == id)).map Prod.snd

/-- Whitespace splitting of a statement's characters into words, by
structural recursion so that it evaluates inside proofs. The second argument
holds the characters of the word being read, reversed. -/
def splitWsAux : List Char → List Char → List String
  | [], cur => if cur.isEmpty then [] else [⟨cur.reverse⟩]
  | c :: cs, cur =>
    if c.isWhitespace then
      if cur.isEmpty then splitWsAux cs [] else ⟨cur.reverse⟩ :: splitWsAux cs []
    else splitWsAux cs (c :: cur)

/-- Whitespace tokens of a statement. -/
def sqlWords (q : String) : List String :=
  splitWsAux q.data []

/-- Drop a trailing semicolon from a token. -/
def stripSemi (t : String) : String :=
  ⟨t.data.takeWhile (fun c => c != ';')⟩

/-- The table named by the first FROM clause of the token list. -/
def tableAfterFrom : List String → Option String
  | [] => none
  | w :: ws =>
    if w = "FROM" then (ws.head?).map stripSemi
    else tableAfterFrom ws

/-- The table named by the first FROM clause of a statement. -/
def fromTable (q : String) : Option String :=
  tableAfterFrom (sqlWords q)

/-- Number of positional placeholders in a statement. -/
def placeholderCount (q : String) : Nat :=
  (q.toList.filter (fun c => c == '?')).length

/-- Byte-order comparison of character lists, matching sqlite's memcmp
ordering of ASCII TEXT values. -/
def strLtAux : List Char → List Char → Bool
  | [], [] => false
  | [], _ :: _ => true
  | _ :: _, [] => false
  | a :: as, b :: bs =>
    if a.toNat < b.toNat then true
    else if b.toNat < a.toNat then false
    else strLtAux as bs

/-- Byte-order comparison of strings. -/
def strLt (a b : String) : Bool := strLtAux a.data b.data

/-- Insert a key into an ascending duplicate-free list of keys. -/
def insertKeyAsc (x : String) : List String → List String
  | [] => [x]
  | y :: ys =>
    if x = y then y :: ys
    else if strLt x y then x :: y :: ys
    else y :: insertKeyAsc x ys

/-- The distinct txn_type values of a transaction list, in ascending order —
the group order sqlite produces for a GROUP BY over an unindexed column. -/
def groupKeys (ts : List Txn) : List String :=
  ts.foldl (fun acc t => insertKeyAsc t.txn_type acc) []

/-- SUM(amount) over the transactions of one group. -/
def sumAmount (k : String) (ts : List Txn) : Int :=
  (ts.filter (fun t => t.txn_type == k)).foldl (fun a t => a + t.amount) 0

/-- Insert a (key, total) pair into a list sorted by total descending. -/
def insertTotalDesc (x : String × Int) : List (String × Int) → List (String × Int)
  | [] => [x]
  | y :: ys => if x.2 > y.2 then x :: y :: ys else y :: insertTotalDesc x ys

/-- Sort (key, total) pairs by total descending. -/
def sortTotalDesc (l : List (String × Int)) : List (String × Int) :=
  l.foldr insertTotalDesc []

/-- Result of catalog entry 5: group by txn_type, SUM(amount), ordered by
the total descending, with the column names of the statement. -/
def query5Table (s : Store) : Table :=
  { columns := ["txn_type", "total_transaction_volume"],
    rows := (sortTotalDesc ((groupKeys s.transactions).map
              (fun k => (k, sumAmount k s.transactions)))).map
            (fun p => [.text p.1, .int p.2]) }

/-- Result of catalog entry 20: same aggregation as entry 5 but with alias
total_volume and no ORDER BY, so rows stay in group-key order. -/
def query20Table (s : Store) : Table :=
  { columns := ["txn_type", "total_volume"],
    rows := (groupKeys s.transactions).map
            (fun k => [.text k, .int (sumAmount k s.transactions)]) }

/-- Row-level semantics of the statements the claims inspect. The remaining
read statements reference only schema tables and succeed; their row contents
decide no claim, so they are given an empty result here. -/
def evalKnown (q : String) (s : Store) : Except String Table :=
  if q = stmt5 then .ok (query5Table s)
  else if q = stmt20 then .ok (query20Table s)
  else .ok { columns := [], rows := [] }

/-- Model of `pandas.read_sql_query` over the sqlite driver: an
environmental driver fault raises with its message; a binding-count mismatch
raises; a statement whose FROM table is not in the schema raises sqlite's
no-such-table error; otherwise the statement is evaluated. -/
def read_sql_query (query : String) (params : List String) (fault : Option String)
    (s : Store) : Except String Table :=
  match fault with
  | some m => .error m
  | none =>
    if params.length ≠ placeholderCount query then
      .error "Incorrect number of bindings supplied."
    else
      match fromTable query with
      | none => .error "malformed SQL statement"
      | some t =>
        if t ∈ tableNames then evalKnown query s
        else .error ("no such table: " ++ t)

/-- The helper run_query (bank.py lines 22-31): the driver call sits in a
try/except, so run_query returns plainly for every statement, parameter
binding, fault and store. On failure it shows "SQL Error: {e}" via st.error
and returns an empty DataFrame (zero columns, zero rows); on success it
returns the materialized frame with no error shown. -/
def run_query (query : String) (params : List String) (fault : Option String)
    (s : Store) : Display × Table :=
  match read_sql_query query params fault s with
  | .ok df => (⟨[], []⟩, df)
  | .error e => (⟨["SQL Error: " ++ e], []⟩, ⟨[], []⟩)

/-- One press of "Run Query" in the SQLite-Queries branch (bank.py lines
324-328): look the selected key up in the dict (KeyError for an unknown key
is `none`) and run the statement with run_query. The branch performs no
write and no commit, so the store after the call is the store before it. -/
def queriesBranchStep (selected : String) (s : Store) : Option ((Display × Table) × Store) :=
  (lookupQuery selected).map (fun q => (run_query q [] none s, s))

/-- The age widget of the Create branch (bank.py line 344):
`st.number_input("Age", min_value=1, max_value=120)` only ever yields a
value inside [min_value, max_value]; modelled as a clamp of the requested
value. -/
def number_input (min_value max_value v : Nat) : Nat :=
  max min_value (min max_value v)

/-- A concrete customer row used to instantiate the mutation claims. -/
def custC1 : Customer := ⟨"C1", "Asha", "F", 30, "Pune", "Savings", "2024-01-01"⟩

/-- The store of the end-to-end example of spec section 8: transactions
{(deposit,100), (deposit,50), (withdrawal,30)}. -/
def c7store : Store :=
  { customers := [],
    transactions :=
      [⟨"T1", "C1", "deposit", 100, "success", "2024-01-01 10:00:00"⟩,
       ⟨"T2", "C2", "deposit", 50, "success", "2024-01-02 10:00:00"⟩,
       ⟨"T3", "C3", "withdrawal", 30, "success", "2024-01-03 10:00:00"⟩] }

/-- Unfolding equation of the row count for an identifier. -/
theorem countId_def (cid : String) (s : Store) :
    countId cid s = (s.customers.filter (fun c => c.customer_id == cid)).length := rfl

/-- If no element of a list satisfies a predicate (its filter is empty),
`any` is false. -/
theorem any_eq_false_of_filter_length_zero {α : Type} (p : α → Bool) (l : List α)
    (h : (l.filter p).length = 0) : l.any p = false := by
  induction l with
  | nil => rfl
  | cons a l ih =>
    by_cases hp : p a = true
    · simp [List.filter_cons, hp] at h
    · simp only [Bool.not_eq_true] at hp
      simp only [List.filter_cons, hp] at h
      simp [List.any_cons, hp, ih h]

/-- If the filter of a list is nonempty, `any` is true. -/
theorem any_eq_true_of_filter_length_pos {α : Type} (p : α → Bool) (l : List α)
    (h : (l.filter p).length ≠ 0) : l.any p = true := by
  induction l with
  | nil => exact absurd rfl h
  | cons a l ih =>
    by_cases hp : p a = true
    · simp [List.any_cons, hp]
    · simp only [Bool.not_eq_true] at hp
      simp only [List.filter_cons, hp] at h
      simp [List.any_cons, hp, ih h]

/-- Filtering with a predicate after keeping only its complement yields
nothing. -/
theorem filter_not_filter_eq_nil {α : Type} (p : α → Bool) (l : List α) :
    (l.filter (fun a => !(p a))).filter p = [] := by
  induction l with
  | nil => rfl
  | cons a l ih =>
    by_cases hp : p a = true
    · simp [List.filter_cons, hp, ih]
    · simp only [Bool.not_eq_true] at hp
      simp [List.filter_cons, hp, ih]

/-- A conditional rewrite of list members that fires for no member (empty
filter) is the identity map. -/
theorem map_ite_eq_self_of_filter_length_zero {α : Type} (p : α → Bool) (f : α → α)
    (l : List α) (h : (l.filter p).length = 0) :
    l.map (fun a => if p a then f a else a) = l := by
  induction l with
  | nil => rfl
  | cons a l ih =>
    by_cases hp : p a = true
    · simp [List.filter_cons, hp] at h
    · simp only [Bool.not_eq_true] at hp
      simp only [List.filter_cons, hp] at h
      simp [List.map_cons, hp, ih h]

/-- A no-match update leaves the customer rows untouched. -/
theorem updStore_eq_self (cid newCity : String) (s : Store) (h : countId cid s = 0) :
    updStore cid newCity s = s := by
  rw [countId_def] at h
  unfold updStore
  rw [map_ite_eq_self_of_filter_length_zero (fun c => c.customer_id == cid)
      (fun c => { c with city := newCity }) s.customers h]

/-- After deleting the rows of an identifier, the row count for that
identifier is zero. -/
theorem countId_delStore (cid : String) (s : Store) : countId cid (delStore cid s) = 0 := by
  unfold countId read_filtered delStore
  simp [filter_not_filter_eq_nil]

/-- C1: the claim fails on the code. The Create branch and run_query do
catch driver failures, but the Update and Delete branches (bank.py lines
368-371 and 378-381) call conn.execute with no try/except, so a raw driver
failure raised there propagates out of the public operation: here a disk
failure during Update escapes as an uncaught error. -/
theorem claim_C1_counterexample :
    updateBranch "C1" "Pune" (some "disk I/O error") ⟨[], []⟩ =
      .error "disk I/O error" := rfl

/-- C1 (amended): run_query and the Create branch catch every driver
failure at their boundary, surface it as a displayed error and leave the
store unchanged; the Update and Delete branches catch nothing, so a driver
failure there propagates to the caller. -/
theorem claim_C1_amended :
    ∀ (e q cid nm g city atype today newCity : String) (params : List String)
      (age : Nat) (s : Store),
      run_query q params (some e) s = (⟨["SQL Error: " ++ e], []⟩, ⟨[], []⟩) ∧
      createBranch cid nm g age city atype today (some e) s = (⟨[e], []⟩, s) ∧
      updateBranch cid newCity (some e) s = .error e ∧
      deleteBranch cid (some e) s = .error e := by
  intro e q cid nm g city atype today newCity params age s
  exact ⟨rfl, rfl, rfl, rfl⟩

/-- C2: run_query never raises: for any statement, parameter binding, fault
and store it returns plainly. When the underlying read fails it shows
"SQL Error: " followed by the original message and returns the
zero-column zero-row table; when the read succeeds it returns the
materialized table with no error shown, in particular a zero-row table on
an empty result set. -/
theorem claim_C2 :
    ∀ (q : String) (params : List String) (fault : Option String) (s : Store)
      (e : String) (t : Table),
      (read_sql_query q params fault s = .error e →
        run_query q params fault s = (⟨["SQL Error: " ++ e], []⟩, ⟨[], []⟩)) ∧
      (read_sql_query q params fault s = .ok t →
        run_query q params fault s = (⟨[], []⟩, t)) ∧
      (read_sql_query q params fault s = .ok t → t.rows = [] →
        (run_query q params fault s).1.errors = [] ∧
        (run_query q params fault s).2.rows = []) := by
  intro q params fault s e t
  refine ⟨fun h => ?_, fun h => ?_, fun h hr => ?_⟩
  · simp [run_query, h]
  · simp [run_query, h]
  · simp [run_query, h, hr]

/-- Witness for C2: the failing statement of catalog entry 21 yields the
error outcome with an empty table, and entry 5 on an empty store yields a
zero-row table with no error. -/
theorem claim_C2_witness :
    run_query stmt21 [] none ⟨[], []⟩ =
      (⟨["SQL Error: " ++ "no such table: tickets"], []⟩, ⟨[], []⟩) ∧
    (run_query stmt5 [] none ⟨[], []⟩).1.errors = [] ∧
    (run_query stmt5 [] none ⟨[], []⟩).2.rows = [] :=
  ⟨(claim_C2 stmt21 [] none ⟨[], []⟩ "no such table: tickets" ⟨[], []⟩).1 (by decide),
   (claim_C2 stmt5 [] none ⟨[], []⟩ "" (query5Table ⟨[], []⟩)).2.2 (by decide) (by decide)⟩

/-- C3: the claim fails on the code. Neither Update nor Delete returns any
rowsAffected: deleting an existing customer and deleting a non-existent one
produce the exact same reported outcome (the unconditional success message
"Customer deleted!"), so the two calls of the delete-twice scenario are not
reported distinctly. -/
theorem claim_C3_counterexample :
    deleteBranch "C1" none ⟨[custC1], []⟩ =
      .ok (⟨[], ["Customer deleted!"]⟩, ⟨[], []⟩) ∧
    deleteBranch "C1" none ⟨[], []⟩ =
      .ok (⟨[], ["Customer deleted!"]⟩, ⟨[], []⟩) :=
  ⟨rfl, rfl⟩

/-- C3 (amended): Update and Delete report an unconditional success message
and surface no rowsAffected. At the store level the semantics the claim
describes do hold: an unmatched update affects zero rows and changes
nothing, and delete on an identifier with one row affects 1 row first and 0
rows on the repeat — but the driver rowcount is discarded by the branches. -/
theorem claim_C3_amended :
    ∀ (s : Store) (cid newCity : String),
      deleteBranch cid none s = .ok (⟨[], ["Customer deleted!"]⟩, delStore cid s) ∧
      updateBranch cid newCity none s =
        .ok (⟨[], ["Customer updated!"]⟩, updStore cid newCity s) ∧
      (countId cid s = 0 → sqliteUpdateCity cid newCity none s = .ok (0, s)) ∧
      (countId cid s = 1 →
        sqliteDeleteCustomer cid none s = .ok (1, delStore cid s) ∧
        sqliteDeleteCustomer cid none (delStore cid s) =
          .ok (0, delStore cid (delStore cid s))) := by
  intro s cid newCity
  refine ⟨rfl, rfl, fun h0 => ?_, fun h1 => ⟨?_, ?_⟩⟩
  · simp [sqliteUpdateCity, h0, updStore_eq_self cid newCity s h0]
  · simp [sqliteDeleteCustomer, h1]
  · simp [sqliteDeleteCustomer, countId_delStore]

/-- Witness for C3 (amended): a concrete unmatched update affects zero rows,
and a concrete delete-twice affects 1 then 0 rows. -/
theorem claim_C3_amended_witness :
    sqliteUpdateCity "C9" "Mumbai" none ⟨[custC1], []⟩ = .ok (0, ⟨[custC1], []⟩) ∧
    sqliteDeleteCustomer "C1" none ⟨[custC1], []⟩ = .ok (1, ⟨[], []⟩) ∧
    sqliteDeleteCustomer "C1" none ⟨[], []⟩ = .ok (0, ⟨[], []⟩) :=
  ⟨(claim_C3_amended ⟨[custC1], []⟩ "C9" "Mumbai").2.2.1 (by decide),
   ((claim_C3_amended ⟨[custC1], []⟩ "C1" "Mumbai").2.2.2 (by decide)).1,
   ((claim_C3_amended ⟨[custC1], []⟩ "C1" "Mumbai").2.2.2 (by decide)).2⟩

/-- C4: the claim fails on the code. The Create branch performs no
emptiness validation at all: a call with empty id, name, gender, city and
account type is submitted to the store and inserted successfully. -/
theorem claim_C4_counterexample :
    createBranch "" "" "" 1 "" "" "2024-01-01" none ⟨[], []⟩ =
      (⟨[], ["Customer added successfully!"]⟩,
       ⟨[⟨"", "", "", 1, "", "", "2024-01-01"⟩], []⟩) := rfl

/-- C4 (amended): the only input constraint is the age widget, which keeps
age inside [1,120]; no non-emptiness check exists, so a create whose string
fields are all empty succeeds and inserts the row whenever the (empty) id is
not already present. -/
theorem claim_C4_amended :
    (∀ v : Nat, 1 ≤ number_input 1 120 v ∧ number_input 1 120 v ≤ 120) ∧
    (∀ (s : Store) (today : String), countId "" s = 0 →
      createBranch "" "" "" (number_input 1 120 0) "" "" today none s =
        (⟨[], ["Customer added successfully!"]⟩,
         { s with customers :=
             s.customers ++ [⟨"", "", "", number_input 1 120 0, "", "", today⟩] })) := by
  constructor
  · intro v
    unfold number_input
    omega
  · intro s today h
    rw [countId_def] at h
    have hany := any_eq_false_of_filter_length_zero (fun c => c.customer_id == "") s.customers h
    simp [createBranch, sqliteInsertCustomer, hany]

/-- Witness for C4 (amended): an out-of-range requested age is clamped into
[1,120], and the all-empty create on the empty store inserts its row. -/
theorem claim_C4_amended_witness :
    (1 ≤ number_input 1 120 200 ∧ number_input 1 120 200 ≤ 120) ∧
    createBranch "" "" "" (number_input 1 120 0) "" "" "2024-02-02" none ⟨[], []⟩ =
      (⟨[], ["Customer added successfully!"]⟩,
       ⟨[⟨"", "", "", number_input 1 120 0, "", "", "2024-02-02"⟩], []⟩) :=
  ⟨claim_C4_amended.1 200, claim_C4_amended.2 ⟨[], []⟩ "2024-02-02" (by decide)⟩

/-- C5: a create whose identifier is already present trips the store's
UNIQUE constraint; the Create branch catches it, shows the driver message,
and the store is returned unchanged, so the row count for that identifier
stays exactly 1. -/
theorem claim_C5 :
    ∀ (s : Store) (cid nm g city atype today : String) (age : Nat),
      countId cid s = 1 →
        createBranch cid nm g age city atype today none s =
          (⟨["UNIQUE constraint failed: customers.customer_id"], []⟩, s) ∧
        countId cid (createBranch cid nm g age city atype today none s).2 = 1 := by
  intro s cid nm g city atype today age h
  rw [countId_def] at h
  have hany : s.customers.any (fun c => c.customer_id == cid) = true := by
    apply any_eq_true_of_filter_length_pos
    intro h0
    rw [h0] at h
    exact absurd h (by decide)
  have hc : createBranch cid nm g age city atype today none s =
      (⟨["UNIQUE constraint failed: customers.customer_id"], []⟩, s) := by
    simp [createBranch, sqliteInsertCustomer, hany]
  exact ⟨hc, by rw [hc]; exact h⟩

/-- Witness for C5: creating a second "C1" fails with the UNIQUE-constraint
message and the one-row store is unchanged. -/
theorem claim_C5_witness :
    createBranch "C1" "Bela" "F" 40 "Delhi" "Current" "2025-05-05" none ⟨[custC1], []⟩ =
      (⟨["UNIQUE constraint failed: customers.customer_id"], []⟩, ⟨[custC1], []⟩) :=
  (claim_C5 ⟨[custC1], []⟩ "C1" "Bela" "F" "Delhi" "Current" "2025-05-05" 40 (by decide)).1

/-- C6: a successful create stores the join date supplied by the store
clock (the seventh INSERT value, DATE of the call), never one of the six
caller fields, and a read filtered on the new identifier returns exactly
one row whose fields match the input and whose join date is that date. -/
theorem claim_C6 :
    ∀ (s : Store) (cid nm g city atype today : String) (age : Nat),
      countId cid s = 0 →
        (createBranch cid nm g age city atype today none s).1 =
          ⟨[], ["Customer added successfully!"]⟩ ∧
        read_filtered cid (createBranch cid nm g age city atype today none s).2 =
          [⟨cid, nm, g, age, city, atype, today⟩] := by
  intro s cid nm g city atype today age h
  rw [countId_def] at h
  have hany := any_eq_false_of_filter_length_zero (fun c => c.customer_id == cid) s.customers h
  have hnil : s.customers.filter (fun c => c.customer_id == cid) = [] :=
    List.length_eq_zero.mp h
  constructor
  · simp [createBranch, sqliteInsertCustomer, hany]
  · simp [createBranch, sqliteInsertCustomer, hany, read_filtered, List.filter_append, hnil]

/-- Witness for C6: a fresh create into a one-customer store, immediately
read back filtered on the new id, yields exactly the inserted row with the
call-date join date. -/
theorem claim_C6_witness :
    (createBranch "C7" "Neha" "F" 28 "Goa" "Savings" "2026-10-12" none ⟨[custC1], []⟩).1 =
      ⟨[], ["Customer added successfully!"]⟩ ∧
    read_filtered "C7"
        (createBranch "C7" "Neha" "F" 28 "Goa" "Savings" "2026-10-12" none ⟨[custC1], []⟩).2 =
      [⟨"C7", "Neha", "F", 28, "Goa", "Savings", "2026-10-12"⟩] :=
  claim_C6 ⟨[custC1], []⟩ "C7" "Neha" "F" "Goa" "Savings" "2026-10-12" 28 (by decide)

/-- C7: the claim fails on the code. On the example store both catalog
entries for total transaction volume by transaction type produce the rows
(deposit,150), (withdrawal,30), but neither result has columns
[txn_type, total]: entry 5 aliases the sum total_transaction_volume and
entry 20 aliases it total_volume. -/
theorem claim_C7_counterexample :
    (run_query stmt5 [] none c7store).2.columns ≠ ["txn_type", "total"] ∧
    (run_query stmt20 [] none c7store).2.columns ≠ ["txn_type", "total"] := by
  exact ⟨by decide, by decide⟩

/-- C7 (amended): on the example store, catalog entry 5 returns columns
[txn_type, total_transaction_volume] with rows [(deposit,150),
(withdrawal,30)] ordered by the total descending, and the duplicate entry
20 returns columns [txn_type, total_volume] with the same rows in group-key
order (its statement has no ORDER BY). -/
theorem claim_C7_amended :
    queriesBranchStep key5 c7store =
      some ((⟨[], []⟩,
             ⟨["txn_type", "total_transaction_volume"],
              [[.text "deposit", .int 150], [.text "withdrawal", .int 30]]⟩), c7store) ∧
    queriesBranchStep key20 c7store =
      some ((⟨[], []⟩,
             ⟨["txn_type", "total_volume"],
              [[.text "deposit", .int 150], [.text "withdrawal", .int 30]]⟩), c7store) :=
  ⟨by decide, by decide⟩

/-- C8: every declared catalog entry has a non-empty statement template;
lookup succeeds exactly for the declared keys (an unknown key is the
KeyError/NotFoundError case, modelled as none); and the declared keys are
pairwise distinct, so the catalog — a closed constant, populated once and
immutable, whose enumeration order is its declaration order by
construction — gives each key a single well-defined statement. -/
theorem claim_C8 :
    (∀ i (h : i < queries.length), ((queries.get ⟨i, h⟩).2).length ≠ 0) ∧
    (∀ id : String, (lookupQuery id).isSome ↔ id ∈ queries.map Prod.fst) ∧
    (queries.map Prod.fst).Nodup := by
  refine ⟨by decide, fun id => ?_, by decide⟩
  simp [lookupQuery, List.find?_isSome, List.mem_map, beq_iff_eq]

/-- Witness for C8: the first catalog entry has a non-empty statement, and
lookup of the unknown key "nope" reports not-found. -/
theorem claim_C8_witness :
    ((queries.get ⟨0, by decide⟩).2).length ≠ 0 ∧
    ((lookupQuery "nope").isSome ↔ "nope" ∈ queries.map Prod.fst) :=
  ⟨claim_C8.1 0 (by decide), claim_C8.2.1 "nope"⟩

/-- C9: one run of a catalog query leaves the store unchanged, so running
the same catalog entry again immediately afterwards yields the identical
displayed outcome and the identical Table, byte for byte. -/
theorem claim_C9 :
    ∀ (id : String) (s : Store) (o : Display × Table) (s₁ : Store),
      queriesBranchStep id s = some (o, s₁) →
        s₁ = s ∧ queriesBranchStep id s₁ = some (o, s₁) := by
  intro id s o s₁ h
  unfold queriesBranchStep at h ⊢
  obtain ⟨q, hq, h2⟩ := Option.map_eq_some'.mp h
  obtain ⟨ho, hs⟩ : run_query q [] none s = o ∧ s = s₁ := by simpa using h2
  subst hs
  rw [hq]
  simp [ho]

/-- Witness for C9: running catalog entry 16 twice on the empty store gives
the same outcome both times and never changes the store. -/
theorem claim_C9_witness :
    (⟨[], []⟩ : Store) = ⟨[], []⟩ ∧
    queriesBranchStep key16 ⟨[], []⟩ =
      some ((⟨[], []⟩, ⟨[], []⟩), ⟨[], []⟩) :=
  claim_C9 key16 ⟨[], []⟩ (⟨[], []⟩, ⟨[], []⟩) ⟨[], []⟩ rfl

/-- C10: catalog entry 21 selects FROM tickets, which is not one of the
schema's tables, so for every store contents the run takes the error path:
the driver's no-such-table failure is caught and displayed and the returned
Table is empty — the entry can never return a row. -/
theorem claim_C10 :
    ∀ s : Store,
      queriesBranchStep key21 s =
        some ((⟨["SQL Error: no such table: tickets"], []⟩, ⟨[], []⟩), s) := by
  intro s
  rfl

end Bank
